import Mathlib

/-!
Verification of the connection registry and message-routing layer of the
platform-receptor-controller repository, as a shallow embedding in Lean.

Embedded source files:
- `internal/controller/receptor.go` : the `ReceptorService` session object and
  its operations (`RegisterConnection`, `UpdateRoutingTable`, `SendMessage`,
  `Close`, `DisconnectReceptorNetwork`).
- `internal/controller/api/management.go` : the management HTTP handlers
  (`handleDisconnect`, `handleConnectionStatus`, `handleConnectionPing`).

Modelling conventions:
- Go `error` results are `Option String` (`none` = nil error, `some e` = error).
- External fallible collaborator calls following Go's `(value, error)`
  convention (with a nil value on failure) are modelled as `Except String _`.
- A Go channel field (`chan<- Message`) is a reference; the session record
  stores channel references as `Nat` identifiers, and the contents of the
  outbound data channel are threaded explicitly as a `List` buffer where an
  operation sends on it.
- `uuid.NewRandom()` draws from an external randomness source; its outcome is
  passed in as an `Except String Nat` argument (a UUID is a 128-bit random
  value, modelled as `Nat`).
- `log.Printf` / `log.Println` calls are modelled, where a claim mentions
  logging, as an explicit list of emitted log lines.
-/

namespace Controller

/-- Message is the job record built by `SendMessage` in
`internal/controller/receptor.go`: a correlation identifier plus the
recipient, route list, payload and directive supplied by the caller.
The payload is `interface\x7b\x7d` in Go, so it is a type parameter here. -/
structure Message (π : Type) where
  MessageID : Nat
  Recipient : String
  RouteList : List String
  Payload : π
  Directive : String
deriving Repr, DecidableEq

/-- ReceptorService is the per-session state object of
`internal/controller/receptor.go`. The Go struct holds the account, node
identity, peer node identity, an opaque metadata blob (`interface\x7b\x7d`,
a type parameter here), and three outbound channel references. The
`edges` and `seen` topology fields are commented out in the Go source, so
the record has no topology snapshot field. -/
structure ReceptorService (μ : Type) where
  Account : String
  NodeID : String
  PeerNodeID : String
  Metadata : μ
  SendChannel : Nat
  ControlChannel : Nat
  ErrorChannel : Nat
deriving Repr, DecidableEq

/-- RegisterConnection embeds `ReceptorService.RegisterConnection`: it logs,
assigns the peer node id and the metadata fields of the receiver, and
returns a nil error. -/
def RegisterConnection (r : ReceptorService μ) (peerNodeID : String) (metadata : μ) :
    ReceptorService μ × Option String :=
  ({ r with PeerNodeID := peerNodeID, Metadata := metadata }, none)

/-- UpdateRoutingTable embeds `ReceptorService.UpdateRoutingTable`: the Go
body only logs the two arguments and returns a nil error; it assigns no
field of the receiver (the `edges`/`seen` struct fields are commented out).
Result: the unchanged session, the emitted log lines, and the error. -/
def UpdateRoutingTable (r : ReceptorService μ) (edges : String) (seen : String) :
    ReceptorService μ × List String × Option String :=
  (r, ["edges: " ++ edges, "seen: " ++ seen], none)

/-- SendMessage embeds `ReceptorService.SendMessage`. The outcome of
`uuid.NewRandom()` is the `uuidResult` argument; `chanBuf` is the current
contents of the session's outbound data channel (`r.SendChannel`). On a
UUID-generation error the function returns early with a nil message id and
the error, leaving the channel untouched; otherwise it constructs the
`Message`, sends it on the outbound data channel, and returns the id with
a nil error. Result components: session, channel buffer, returned message
id, returned error. -/
def SendMessage (r : ReceptorService μ) (chanBuf : List (Message π))
    (uuidResult : Except String Nat) (recipient : String) (route : List String)
    (payload : π) (directive : String) :
    ReceptorService μ × List (Message π) × Option Nat × Option String :=
  match uuidResult with
  | Except.error e => (r, chanBuf, none, some e)
  | Except.ok jobID =>
      let msg : Message π :=
        { MessageID := jobID, Recipient := recipient, RouteList := route,
          Payload := payload, Directive := directive }
      (r, chanBuf ++ [msg], some jobID, none)

/-- Close embeds `ReceptorService.Close`: the Go body is empty, so the
session state is returned unchanged. -/
def Close (r : ReceptorService μ) : ReceptorService μ :=
  r

/-- DisconnectReceptorNetwork embeds
`ReceptorService.DisconnectReceptorNetwork`: the Go body is empty, so the
session state is returned unchanged. -/
def DisconnectReceptorNetwork (r : ReceptorService μ) : ReceptorService μ :=
  r

end Controller

namespace Api

/-- CONNECTED_STATUS mirrors the constant in
`internal/controller/api/management.go`. -/
def CONNECTED_STATUS : String := "connected"

/-- DISCONNECTED_STATUS mirrors the constant in
`internal/controller/api/management.go`. -/
def DISCONNECTED_STATUS : String := "disconnected"

/-- connectionID is the decoded request body of the management handlers:
an account (tenant) and a node id. -/
structure connectionID where
  Account : String
  NodeID : String
deriving Repr, DecidableEq

/-- errorResponse mirrors the error JSON body written by the management
handlers (title, HTTP status, detail). -/
structure errorResponse where
  Title : String
  Status : Nat
  Detail : String
deriving Repr, DecidableEq

/-- connectionStatusResponse mirrors the status JSON body: a status string
and a capabilities field marked `omitempty`, so a `none` value means the
field is omitted from the encoded response. -/
structure connectionStatusResponse (κ : Type) where
  Status : String
  Capabilities : Option κ
deriving Repr, DecidableEq

/-- connectionPingResponse mirrors the ping JSON body: a status string and
the ping reply payload (`none` when no payload was obtained). -/
structure connectionPingResponse (ρ : Type) where
  Status : String
  Payload : Option ρ
deriving Repr, DecidableEq

/-- httpReply is the outcome a handler writes: either a JSON body with an
HTTP status code, or an error response (written with its own status). -/
inductive httpReply (α : Type) where
  | json (status : Nat) (body : α)
  | err (e : errorResponse)
deriving Repr, DecidableEq

/-- Registry models the connection locator's index as an association list
from (account, node id) to a session value. Modelled from the spec:
`ConnectionLocator.GetConnection` resolves a session by tenant and node
identity; its implementation is outside the given sources, and the spec
describes it as a point lookup in a tenant to node-identity to session
mapping. -/
def Registry (σ : Type) := List ((String × String) × σ)

/-- GetConnection is the point lookup the management handlers perform via
the connection locator: the session registered under (account, nodeID), or
`none` when absent. -/
def GetConnection (reg : Registry σ) (account : String) (nodeID : String) : Option σ :=
  match reg with
  | [] => none
  | (k, s) :: rest =>
      if k = (account, nodeID) then some s else GetConnection rest account nodeID

/-- handleDisconnect embeds the post-decode body of
`ManagementServer.handleDisconnect`: look the connection up; if absent,
write a not-found error response (HTTP 400); if present, invoke `Close` on
the client and write HTTP 200 with an empty body. The handler never
modifies the registry index itself. Result components: the registry after
the handler, the reply, and whether `Close` was invoked on the client. -/
def handleDisconnect (reg : Registry σ) (connID : connectionID) :
    Registry σ × httpReply Unit × Bool :=
  match GetConnection reg connID.Account connID.NodeID with
  | none =>
      let errMsg := "No connection found for node (" ++ connID.Account ++ ":"
        ++ connID.NodeID ++ ")"
      (reg, httpReply.err { Title := errMsg, Status := 400, Detail := errMsg }, false)
  | some _ => (reg, httpReply.json 200 Unit.unit, true)

/-- handleConnectionStatus embeds the post-decode body of
`ManagementServer.handleConnectionStatus`. `clientFound` is whether the
locator returned a client; `capResult` is the outcome of the external
`GetCapabilities` call (Go `(value, error)` with a nil value on failure,
modelled as `Except`). When a client is found the status is "connected"
and the capabilities value is assigned to the response; on a capability
error a log line is emitted and the (nil) capabilities value leaves the
`omitempty` field omitted. When no client is found the status is
"disconnected" with no capabilities. The handler always writes HTTP 200.
Result components: HTTP status, response body, emitted error-log lines. -/
def handleConnectionStatus (nodeID : String) (clientFound : Bool)
    (capResult : Except String κ) :
    Nat × connectionStatusResponse κ × List String :=
  if clientFound then
    match capResult with
    | Except.error e =>
        (200, { Status := CONNECTED_STATUS, Capabilities := none },
         ["Unable to retrieve the capabilities of node " ++ nodeID ++ ": " ++ e])
    | Except.ok caps =>
        (200, { Status := CONNECTED_STATUS, Capabilities := some caps }, [])
  else
    (200, { Status := DISCONNECTED_STATUS, Capabilities := none }, [])

/-- handleConnectionPing embeds the post-decode body of
`ManagementServer.handleConnectionPing`. `clientFound` is whether the
locator returned a client; `ping` is the external `client.Ping` call,
taking the account, node id and route list arguments the handler passes
(the handler passes the single-element route list containing the target
node id). If no client is found the handler writes HTTP 200 with a
"disconnected" body and a nil payload without dispatching a ping; if the
ping call fails the handler writes a "Ping failed" error response
(HTTP 400); otherwise it writes HTTP 200 with a "connected" body carrying
the reply payload. Result components: the reply, and the arguments the
ping was dispatched with (`none` when no ping was dispatched). -/
def handleConnectionPing (connID : connectionID) (clientFound : Bool)
    (ping : String → String → List String → Except String ρ) :
    httpReply (connectionPingResponse ρ) × Option (String × String × List String) :=
  if clientFound then
    match ping connID.Account connID.NodeID [connID.NodeID] with
    | Except.error e =>
        (httpReply.err { Title := "Ping failed", Status := 400, Detail := e },
         some (connID.Account, connID.NodeID, [connID.NodeID]))
    | Except.ok payload =>
        (httpReply.json 200 { Status := CONNECTED_STATUS, Payload := some payload },
         some (connID.Account, connID.NodeID, [connID.NodeID]))
  else
    (httpReply.json 200 { Status := DISCONNECTED_STATUS, Payload := none }, none)

end Api

namespace Claims

open Controller Api

/-- sampleSession is a concrete session used by counterexamples and
witnesses. -/
def sampleSession : Controller.ReceptorService String :=
  { Account := "acct1", NodeID := "nodeX", PeerNodeID := "nodeX",
    Metadata := "meta", SendChannel := 0, ControlChannel := 1, ErrorChannel := 2 }

/-- identityPreserved states that a session resulting from an operation
kept the original session's account, node identity and three channel
references. -/
def identityPreserved (r s : Controller.ReceptorService μ) : Prop :=
  s.Account = r.Account ∧ s.NodeID = r.NodeID ∧
  s.SendChannel = r.SendChannel ∧ s.ControlChannel = r.ControlChannel ∧
  s.ErrorChannel = r.ErrorChannel

/-- C1: when identifier generation succeeds, `SendMessage` enqueues exactly
one `Message` on the session's outbound data channel, the message's
`MessageID` equals the non-nil identifier returned to the caller, its
`Recipient`, `RouteList`, `Payload` and `Directive` equal the arguments
unchanged, and the returned error is nil. In this sequential embedding the
identifier and the enqueued message are components of the same success
result: the identifier is present exactly when the message has been placed
on the channel. -/
theorem C1_sendMessage_dispatch (r : Controller.ReceptorService μ)
    (chanBuf : List (Controller.Message π)) (u : Nat) (recipient : String)
    (route : List String) (payload : π) (directive : String) :
    Controller.SendMessage r chanBuf (Except.ok u) recipient route payload directive =
      (r,
       chanBuf ++ [{ MessageID := u, Recipient := recipient, RouteList := route,
                     Payload := payload, Directive := directive }],
       some u, none) :=
  rfl

/-- C2 counterexample: after `Close`, `SendMessage` does not fail with a
SessionClosed error — it returns a nil error and a non-nil identifier, and
the message is enqueued on the outbound channel anyway. -/
theorem C2_counterexample :
    (Controller.SendMessage (Controller.Close sampleSession)
      ([] : List (Controller.Message String)) (Except.ok 42) "nodeX" [] "pl" "run").2.2.2
      = none ∧
    (Controller.SendMessage (Controller.Close sampleSession)
      ([] : List (Controller.Message String)) (Except.ok 42) "nodeX" [] "pl" "run").2.2.1
      = some 42 ∧
    (Controller.SendMessage (Controller.Close sampleSession)
      ([] : List (Controller.Message String)) (Except.ok 42) "nodeX" [] "pl" "run").2.1
      = [{ MessageID := 42, Recipient := "nodeX", RouteList := [],
           Payload := "pl", Directive := "run" }] :=
  ⟨rfl, rfl, rfl⟩

/-- C2 amended: `SendMessage` performs no closed-session check. `Close` is
a no-op on the session state, and a subsequent `SendMessage` behaves
exactly as on an open session: with a successful identifier it enqueues
the message and returns the identifier with a nil error; no SessionClosed
error exists at this layer. -/
theorem C2_amended_no_closed_check (r : Controller.ReceptorService μ)
    (chanBuf : List (Controller.Message π)) (u : Nat) (recipient : String)
    (route : List String) (payload : π) (directive : String) :
    Controller.Close r = r ∧
    Controller.SendMessage (Controller.Close r) chanBuf (Except.ok u)
        recipient route payload directive =
      (r,
       chanBuf ++ [{ MessageID := u, Recipient := recipient, RouteList := route,
                     Payload := payload, Directive := directive }],
       some u, none) :=
  ⟨rfl, rfl⟩

/-- C3 counterexample: `UpdateRoutingTable` does not store the supplied
edges and seen values — the resulting session equals the input session
unchanged, and two calls with different topology values produce identical
sessions, so no snapshot of the supplied values is recorded. -/
theorem C3_counterexample :
    (Controller.UpdateRoutingTable sampleSession "edge1" "seen1").1 = sampleSession ∧
    (Controller.UpdateRoutingTable sampleSession "edge1" "seen1").1 =
      (Controller.UpdateRoutingTable sampleSession "edge2" "seen2").1 :=
  ⟨rfl, rfl⟩

/-- C3 amended: `UpdateRoutingTable` logs the supplied edges and seen
values and returns success (a nil error) for all inputs, but stores
nothing: the session state is unchanged (the edges and seen fields are
commented out in the struct). -/
theorem C3_amended_update_routing_table (r : Controller.ReceptorService μ)
    (edges seen : String) :
    Controller.UpdateRoutingTable r edges seen =
      (r, ["edges: " ++ edges, "seen: " ++ seen], none) :=
  rfl

/-- C4: when the randomness source fails, `SendMessage` fails the whole
dispatch: the returned message id is nil, the error is returned to the
caller, no message is enqueued on the outbound channel, and the session
state is unchanged. -/
theorem C4_sendMessage_uuid_failure (r : Controller.ReceptorService μ)
    (chanBuf : List (Controller.Message π)) (e : String) (recipient : String)
    (route : List String) (payload : π) (directive : String) :
    Controller.SendMessage r chanBuf (Except.error e) recipient route payload directive =
      (r, chanBuf, none, some e) :=
  rfl

/-- C5: a capability-query failure does not fail the status check: the
handler still reports HTTP 200 with status "connected", logs the failure,
and the capabilities field is omitted (nil under omitempty); when no
session is found the handler reports HTTP 200 with status "disconnected"
and no capabilities and logs nothing. -/
theorem C5_status_capability_failure (nodeID : String) (e : String)
    (capResult : Except String κ) :
    Api.handleConnectionStatus nodeID true (Except.error e : Except String κ) =
      (200, { Status := Api.CONNECTED_STATUS, Capabilities := none },
       ["Unable to retrieve the capabilities of node " ++ nodeID ++ ": " ++ e]) ∧
    Api.handleConnectionStatus nodeID false capResult =
      (200, { Status := Api.DISCONNECTED_STATUS, Capabilities := none }, []) :=
  ⟨rfl, rfl⟩

/-- C6: when the session is absent the ping handler reports "disconnected"
with a nil payload over HTTP 200 and dispatches nothing; when the session
is present it dispatches a ping whose route list is the single target node
id, and a ping failure is surfaced as an explicit "Ping failed" error
response (HTTP 400), distinct from the "disconnected" report, while a
successful reply is returned as "connected" with the payload. -/
theorem C6_ping_handler (connID : Api.connectionID)
    (ping : String → String → List String → Except String ρ) :
    Api.handleConnectionPing connID false ping =
      (Api.httpReply.json 200 { Status := Api.DISCONNECTED_STATUS, Payload := none },
       none) ∧
    (∀ p : ρ, ping connID.Account connID.NodeID [connID.NodeID] = Except.ok p →
      Api.handleConnectionPing connID true ping =
        (Api.httpReply.json 200 { Status := Api.CONNECTED_STATUS, Payload := some p },
         some (connID.Account, connID.NodeID, [connID.NodeID]))) ∧
    (∀ e : String, ping connID.Account connID.NodeID [connID.NodeID] = Except.error e →
      Api.handleConnectionPing connID true ping =
        (Api.httpReply.err { Title := "Ping failed", Status := 400, Detail := e },
         some (connID.Account, connID.NodeID, [connID.NodeID]))) := by
  refine ⟨rfl, ?_, ?_⟩
  · intro p hp
    simp [Api.handleConnectionPing, hp]
  · intro e he
    simp [Api.handleConnectionPing, he]

/-- C6 witness: the ping handler evaluated at a concrete connection id with
a concrete succeeding ping and a concrete failing ping. -/
theorem C6_ping_handler_witness :
    Api.handleConnectionPing ⟨"acct1", "nodeX"⟩ true
        (fun _ _ _ => (Except.ok "pong" : Except String String)) =
      (Api.httpReply.json 200 { Status := Api.CONNECTED_STATUS, Payload := some "pong" },
       some ("acct1", "nodeX", ["nodeX"])) ∧
    Api.handleConnectionPing ⟨"acct1", "nodeX"⟩ true
        (fun _ _ _ => (Except.error "boom" : Except String String)) =
      (Api.httpReply.err { Title := "Ping failed", Status := 400, Detail := "boom" },
       some ("acct1", "nodeX", ["nodeX"])) :=
  ⟨(C6_ping_handler ⟨"acct1", "nodeX"⟩ (fun _ _ _ => Except.ok "pong")).2.1 "pong" rfl,
   (C6_ping_handler ⟨"acct1", "nodeX"⟩ (fun _ _ _ => Except.error "boom")).2.2 "boom" rfl⟩

/-- C7: if no session is registered for (account, nodeID) the disconnect
handler reports a not-found failure (HTTP 400 error response) and invokes
no `Close`; if a session is found the handler invokes `Close` on it and
reports HTTP 200; in both cases the handler leaves the registry index
unchanged — it performs no removal. -/
theorem C7_disconnect_handler (reg : Api.Registry σ) (connID : Api.connectionID) :
    (Api.handleDisconnect reg connID).1 = reg ∧
    (Api.GetConnection reg connID.Account connID.NodeID = none →
      (Api.handleDisconnect reg connID).2.1 =
        Api.httpReply.err
          { Title := "No connection found for node (" ++ connID.Account ++ ":"
              ++ connID.NodeID ++ ")",
            Status := 400,
            Detail := "No connection found for node (" ++ connID.Account ++ ":"
              ++ connID.NodeID ++ ")" } ∧
      (Api.handleDisconnect reg connID).2.2 = false) ∧
    (∀ c : σ, Api.GetConnection reg connID.Account connID.NodeID = some c →
      (Api.handleDisconnect reg connID).2.1 = Api.httpReply.json 200 Unit.unit ∧
      (Api.handleDisconnect reg connID).2.2 = true) := by
  refine ⟨?_, ?_, ?_⟩
  · unfold Api.handleDisconnect
    cases Api.GetConnection reg connID.Account connID.NodeID <;> rfl
  · intro h
    unfold Api.handleDisconnect
    rw [h]
    exact ⟨rfl, rfl⟩
  · intro c h
    unfold Api.handleDisconnect
    rw [h]
    exact ⟨rfl, rfl⟩

/-- C7 witness: the disconnect handler evaluated on a concrete empty
registry (not-found branch) and on a concrete one-entry registry (found
branch, `Close` invoked), with the registry unchanged in both cases. -/
theorem C7_disconnect_handler_witness :
    (Api.handleDisconnect ([] : Api.Registry String) ⟨"acct1", "nodeX"⟩).2.1 =
      Api.httpReply.err
        { Title := "No connection found for node (acct1:nodeX)",
          Status := 400,
          Detail := "No connection found for node (acct1:nodeX)" } ∧
    (Api.handleDisconnect ([] : Api.Registry String) ⟨"acct1", "nodeX"⟩).2.2 = false ∧
    (Api.handleDisconnect ([(("acct1", "nodeX"), "sess")] : Api.Registry String)
        ⟨"acct1", "nodeX"⟩).2.1 = Api.httpReply.json 200 Unit.unit ∧
    (Api.handleDisconnect ([(("acct1", "nodeX"), "sess")] : Api.Registry String)
        ⟨"acct1", "nodeX"⟩).2.2 = true ∧
    (Api.handleDisconnect ([(("acct1", "nodeX"), "sess")] : Api.Registry String)
        ⟨"acct1", "nodeX"⟩).1 = [(("acct1", "nodeX"), "sess")] := by
  have h1 := (C7_disconnect_handler ([] : Api.Registry String) ⟨"acct1", "nodeX"⟩).2.1 rfl
  have h2 := (C7_disconnect_handler
    ([(("acct1", "nodeX"), "sess")] : Api.Registry String) ⟨"acct1", "nodeX"⟩).2.2
    "sess" (by decide)
  have h3 := (C7_disconnect_handler
    ([(("acct1", "nodeX"), "sess")] : Api.Registry String) ⟨"acct1", "nodeX"⟩).1
  exact ⟨h1.1, h1.2, h2.1, h2.2, h3⟩

/-- C8: `RegisterConnection` records the supplied peer node id as the
session's peer identity and replaces the session's metadata wholesale with
the supplied value, whatever metadata was stored before; it changes no
other field and always returns a nil error. -/
theorem C8_register_connection (r : Controller.ReceptorService μ)
    (peerNodeID : String) (metadata : μ) :
    (Controller.RegisterConnection r peerNodeID metadata).1.PeerNodeID = peerNodeID ∧
    (Controller.RegisterConnection r peerNodeID metadata).1.Metadata = metadata ∧
    (Controller.RegisterConnection r peerNodeID metadata).2 = none ∧
    identityPreserved r (Controller.RegisterConnection r peerNodeID metadata).1 :=
  ⟨rfl, rfl, rfl, rfl, rfl, rfl, rfl, rfl⟩

/-- C9: every session operation — `RegisterConnection`, `UpdateRoutingTable`,
`SendMessage` (on either outcome of identifier generation), `Close` and
`DisconnectReceptorNetwork` — leaves the session's account, node identity
and three channel references (outbound data, outbound control, error)
unchanged: the channels are fixed for the session's lifetime and the
session is never rebound to a different node identity. -/
theorem C9_identity_and_channels_fixed (r : Controller.ReceptorService μ)
    (peerNodeID : String) (metadata : μ) (edges seen : String)
    (chanBuf : List (Controller.Message π)) (uuidResult : Except String Nat)
    (recipient : String) (route : List String) (payload : π) (directive : String) :
    identityPreserved r (Controller.RegisterConnection r peerNodeID metadata).1 ∧
    identityPreserved r (Controller.UpdateRoutingTable r edges seen).1 ∧
    identityPreserved r
      (Controller.SendMessage r chanBuf uuidResult recipient route payload directive).1 ∧
    identityPreserved r (Controller.Close r) ∧
    identityPreserved r (Controller.DisconnectReceptorNetwork r) := by
  refine ⟨⟨rfl, rfl, rfl, rfl, rfl⟩, ⟨rfl, rfl, rfl, rfl, rfl⟩, ?_,
    ⟨rfl, rfl, rfl, rfl, rfl⟩, ⟨rfl, rfl, rfl, rfl, rfl⟩⟩
  cases uuidResult <;> exact ⟨rfl, rfl, rfl, rfl, rfl⟩

/-- C10: `SendMessage` validates nothing about its inputs: for every
recipient string — the empty string included — and every directive, given
a successful identifier the call returns a nil error and enqueues a
message carrying the recipient, route list, payload and directive
verbatim; the spec's non-empty-recipient constraint is not enforced by
this operation. -/
theorem C10_sendMessage_no_validation (r : Controller.ReceptorService μ)
    (chanBuf : List (Controller.Message π)) (u : Nat) (recipient : String)
    (route : List String) (payload : π) (directive : String) :
    (Controller.SendMessage r chanBuf (Except.ok u) recipient route payload
        directive).2.2.2 = none ∧
    (Controller.SendMessage r chanBuf (Except.ok u) recipient route payload
        directive).2.2.1 = some u ∧
    (Controller.SendMessage r chanBuf (Except.ok u) recipient route payload
        directive).2.1 =
      chanBuf ++ [{ MessageID := u, Recipient := recipient, RouteList := route,
                    Payload := payload, Directive := directive }] ∧
    (Controller.SendMessage r chanBuf (Except.ok u) "" route payload
        directive).2.2.2 = none :=
  ⟨rfl, rfl, rfl, rfl⟩

end Claims
